import Mathlib

/-!
Verification of the precision-dispatch layer of
`caffe2/operators/fully_connected_op_gpu.cc`.

The file embeds the two dispatchers
(`RunFullyConnectedOpOnCUDADevice`, `RunFullyConnectedGradientOpOnCUDADevice`)
and the engine-specific `RunOnDevice` bindings as executable Lean functions.
External collaborators (the device-property provider, the specialized
`DoRunWithType` execution routines) are passed in as function parameters,
and every observable side effect (device query, informational log,
invocation of an execution routine) is recorded in an event trace, so that
claims about call counts, log emission and ordering can be stated directly.
-/

namespace Caffe2FC

/-- A precision tag for one operand role of a type instantiation:
`full` is 32-bit `float`, `half` is `float16`. -/
inductive Prec where
  | full
  | half
deriving DecidableEq, Repr

/-- Runtime element-type tag of a tensor, as tested by the chain
`IsType<float>` / `IsType<float16>` in the source; `other` stands for any
element type outside that recognized set. -/
inductive ElemTy where
  | float
  | float16
  | other
deriving DecidableEq, Repr

/-- The slice of `cudaDeviceProp` the dispatcher reads: the major compute
capability revision. -/
structure cudaDeviceProp where
  major : Int
deriving DecidableEq, Repr

/-- Source constant `kFp16CUDADevicePropMajor`: minimum major revision for
accelerated FP16 arithmetic. -/
def kFp16CUDADevicePropMajor : Int := 6

/-- The informational message emitted on the hardware fallback path. -/
def fp16FallbackMsg : String :=
  "CUDA Device does not support FP16 computation, falling back to FP32."

/-- The type instantiation selected by the forward dispatcher: one
precision per role `X, W, B, Y, Math` (the five template arguments of
`DoRunWithType` in the forward path). -/
structure FwdTypeTuple where
  X : Prec
  W : Prec
  B : Prec
  Y : Prec
  Math : Prec
deriving DecidableEq, Repr

/-- The type instantiation selected by the backward dispatcher: one
precision per role `X, W, dY, B, dX, dW, dB, Math` (the eight template
arguments of `DoRunWithType` in the gradient path). -/
structure BwdTypeTuple where
  X : Prec
  W : Prec
  dY : Prec
  B : Prec
  dX : Prec
  dW : Prec
  dB : Prec
  Math : Prec
deriving DecidableEq, Repr

/-- The error raised by `CAFFE_THROW("Unsupported type")`. -/
inductive CaffeError where
  | unsupportedType
deriving DecidableEq, Repr

/-- One observable side effect of a dispatch, in program order:
a `GetDeviceProperty` query, a `LOG(INFO)` emission, or the invocation of a
specialized execution routine with the selected type tuple `t`. -/
inductive DispatchEvent (τ : Type) where
  | query (deviceIndex : Nat)
  | logInfo (msg : String)
  | invoke (t : τ)
deriving DecidableEq, Repr

/-- The full outcome of one dispatch call: its side effects in order, and
its synchronous result (either the boolean returned by the invoked
execution routine, or the thrown error). -/
structure DispatchTrace (τ : Type) where
  events : List (DispatchEvent τ)
  result : Except CaffeError Bool

/-- The type tuples passed to execution routines during the dispatch, in
invocation order. -/
def DispatchTrace.invoked {τ : Type} (tr : DispatchTrace τ) : List τ :=
  tr.events.filterMap fun e =>
    match e with
    | DispatchEvent.invoke t => some t
    | _ => none

/-- The informational log messages emitted during the dispatch, in order. -/
def DispatchTrace.logs {τ : Type} (tr : DispatchTrace τ) : List String :=
  tr.events.filterMap fun e =>
    match e with
    | DispatchEvent.logInfo m => some m
    | _ => none

/-- The device indices passed to the device-property provider during the
dispatch, in query order. -/
def DispatchTrace.queried {τ : Type} (tr : DispatchTrace τ) : List Nat :=
  tr.events.filterMap fun e =>
    match e with
    | DispatchEvent.query i => some i
    | _ => none

/-- Abstraction of a `FullyConnectedOp<CUDAContext, ...>` instance as seen
by the dispatcher: the element type of `Input(0)`, the family of
specialized `DoRunWithType` execution routines (keyed by the selected type
tuple), the operator's configured `float16_compute_` flag, and the CUDA
device the operator is configured to run on (held by its context; the
dispatcher never reads it). -/
structure FCOpHandle where
  input0Type : ElemTy
  DoRunWithType : FwdTypeTuple → Bool
  float16_compute_ : Bool
  configuredDevice : Nat

/-- Abstraction of a `FullyConnectedGradientOp<CUDAContext, ...>` instance,
mirroring `FCOpHandle` with the eight-role gradient tuple. -/
structure FCGradientOpHandle where
  input0Type : ElemTy
  DoRunWithType : BwdTypeTuple → Bool
  float16_compute_ : Bool
  configuredDevice : Nat

/-- Embedding of the forward dispatcher `RunFullyConnectedOpOnCUDADevice`.
`getDeviceProperty` stands for the external `GetDeviceProperty` provider
from `caffe2/core/common_gpu.h`. The branch structure follows the source
line by line. -/
def RunFullyConnectedOpOnCUDADevice
    (float16_compute : Bool)
    (getDeviceProperty : Nat → cudaDeviceProp)
    (op : FCOpHandle) : DispatchTrace FwdTypeTuple :=
  if op.input0Type = ElemTy.float then
    let t : FwdTypeTuple := ⟨Prec.full, Prec.full, Prec.full, Prec.full, Prec.full⟩
    { events := [DispatchEvent.invoke t]
      result := Except.ok (op.DoRunWithType t) }
  else if op.input0Type = ElemTy.float16 then
    if float16_compute then
      let prop := getDeviceProperty 0
      if prop.major ≥ kFp16CUDADevicePropMajor then
        let t : FwdTypeTuple := ⟨Prec.half, Prec.half, Prec.half, Prec.half, Prec.half⟩
        { events := [DispatchEvent.query 0, DispatchEvent.invoke t]
          result := Except.ok (op.DoRunWithType t) }
      else
        let t : FwdTypeTuple := ⟨Prec.half, Prec.half, Prec.half, Prec.half, Prec.full⟩
        { events := [DispatchEvent.query 0,
                     DispatchEvent.logInfo fp16FallbackMsg,
                     DispatchEvent.invoke t]
          result := Except.ok (op.DoRunWithType t) }
    else
      let t : FwdTypeTuple := ⟨Prec.half, Prec.half, Prec.half, Prec.half, Prec.full⟩
      { events := [DispatchEvent.invoke t]
        result := Except.ok (op.DoRunWithType t) }
  else
    { events := []
      result := Except.error CaffeError.unsupportedType }

/-- Embedding of the backward dispatcher
`RunFullyConnectedGradientOpOnCUDADevice`, mirroring the forward one over
the eight-role tuple. -/
def RunFullyConnectedGradientOpOnCUDADevice
    (float16_compute : Bool)
    (getDeviceProperty : Nat → cudaDeviceProp)
    (op : FCGradientOpHandle) : DispatchTrace BwdTypeTuple :=
  if op.input0Type = ElemTy.float then
    let t : BwdTypeTuple :=
      ⟨Prec.full, Prec.full, Prec.full, Prec.full,
       Prec.full, Prec.full, Prec.full, Prec.full⟩
    { events := [DispatchEvent.invoke t]
      result := Except.ok (op.DoRunWithType t) }
  else if op.input0Type = ElemTy.float16 then
    if float16_compute then
      let prop := getDeviceProperty 0
      if prop.major ≥ kFp16CUDADevicePropMajor then
        let t : BwdTypeTuple :=
          ⟨Prec.half, Prec.half, Prec.half, Prec.half,
           Prec.half, Prec.half, Prec.half, Prec.half⟩
        { events := [DispatchEvent.query 0, DispatchEvent.invoke t]
          result := Except.ok (op.DoRunWithType t) }
      else
        let t : BwdTypeTuple :=
          ⟨Prec.half, Prec.half, Prec.half, Prec.half,
           Prec.half, Prec.half, Prec.half, Prec.full⟩
        { events := [DispatchEvent.query 0,
                     DispatchEvent.logInfo fp16FallbackMsg,
                     DispatchEvent.invoke t]
          result := Except.ok (op.DoRunWithType t) }
    else
      let t : BwdTypeTuple :=
        ⟨Prec.half, Prec.half, Prec.half, Prec.half,
         Prec.half, Prec.half, Prec.half, Prec.full⟩
      { events := [DispatchEvent.invoke t]
        result := Except.ok (op.DoRunWithType t) }
  else
    { events := []
      result := Except.error CaffeError.unsupportedType }

/-- The engine template tag a specialization is bound to. -/
inductive Engine where
  | DefaultEngine
  | TensorCoreEngine
deriving DecidableEq, Repr

/-- The `RunOnDevice` bodies of the four forward specializations.
`transposeWeight` distinguishes the default (`true`) specialization from
the `false /* don't transpose weight */` one; both call the same
dispatcher. The `DefaultEngine` bindings pass the operator's own
`float16_compute_` flag; the `TensorCoreEngine` bindings pass the literal
`false`. -/
def FullyConnectedOp.RunOnDevice
    (engine : Engine) (transposeWeight : Bool)
    (getDeviceProperty : Nat → cudaDeviceProp)
    (op : FCOpHandle) : DispatchTrace FwdTypeTuple :=
  match engine, transposeWeight with
  | Engine.DefaultEngine, _ =>
      RunFullyConnectedOpOnCUDADevice op.float16_compute_ getDeviceProperty op
  | Engine.TensorCoreEngine, _ =>
      RunFullyConnectedOpOnCUDADevice false getDeviceProperty op

/-- The `RunOnDevice` bodies of the four backward specializations,
mirroring the forward bindings. -/
def FullyConnectedGradientOp.RunOnDevice
    (engine : Engine) (transposeWeight : Bool)
    (getDeviceProperty : Nat → cudaDeviceProp)
    (op : FCGradientOpHandle) : DispatchTrace BwdTypeTuple :=
  match engine, transposeWeight with
  | Engine.DefaultEngine, _ =>
      RunFullyConnectedGradientOpOnCUDADevice
        op.float16_compute_ getDeviceProperty op
  | Engine.TensorCoreEngine, _ =>
      RunFullyConnectedGradientOpOnCUDADevice false getDeviceProperty op

/-- The precisions of the roles shared between the forward and backward
tuples. -/
structure SharedRoles where
  X : Prec
  W : Prec
  B : Prec
  Math : Prec
deriving DecidableEq, Repr

/-- Projection of a forward tuple onto the shared roles. -/
def FwdTypeTuple.shared (t : FwdTypeTuple) : SharedRoles :=
  ⟨t.X, t.W, t.B, t.Math⟩

/-- Projection of a backward tuple onto the shared roles. -/
def BwdTypeTuple.shared (t : BwdTypeTuple) : SharedRoles :=
  ⟨t.X, t.W, t.B, t.Math⟩

/-- Classification of a dispatch call: it either fails with
`UnsupportedType`, succeeds after emitting the fallback log, or succeeds
silently. -/
inductive BranchOutcome where
  | unsupported
  | fallbackWithLog
  | success
deriving DecidableEq, Repr

/-- The branch outcome of a trace. -/
def DispatchTrace.outcome {τ : Type} (tr : DispatchTrace τ) : BranchOutcome :=
  match tr.result with
  | Except.error _ => BranchOutcome.unsupported
  | Except.ok _ =>
      if tr.logs = [] then BranchOutcome.success else BranchOutcome.fallbackWithLog

/-- The Math-role invariant for a forward tuple: the math precision equals
the precision of every operand role, or is full precision. -/
def FwdTypeTuple.mathInvariant (t : FwdTypeTuple) : Bool :=
  t.Math == Prec.full ||
    (t.X == t.Math && t.W == t.Math && t.B == t.Math && t.Y == t.Math)

/-- The Math-role invariant for a backward tuple: the math precision equals
the precision of every operand role, or is full precision. -/
def BwdTypeTuple.mathInvariant (t : BwdTypeTuple) : Bool :=
  t.Math == Prec.full ||
    (t.X == t.Math && t.W == t.Math && t.dY == t.Math && t.B == t.Math &&
     t.dX == t.Math && t.dW == t.Math && t.dB == t.Math)

end Caffe2FC

namespace Caffe2FC

/-- A device-property provider reporting the same major revision for every
device index, used as a concrete witness environment. -/
def gdpAt (m : Int) : Nat → cudaDeviceProp := fun _ => ⟨m⟩

/-- A concrete forward operator handle with the given input type, used in
witness statements. -/
def fwdOpW (ty : ElemTy) : FCOpHandle :=
  ⟨ty, fun _ => true, true, 0⟩

/-- A concrete backward operator handle with the given input type, used in
witness statements. -/
def bwdOpW (ty : ElemTy) : FCGradientOpHandle :=
  ⟨ty, fun _ => true, true, 0⟩

/-- C1: for a half-precision input with the precision flag true and a
device major revision below `kFp16CUDADevicePropMajor`, both dispatchers
query the device, emit exactly one informational fallback message, and then
invoke the instantiation with all data roles half and Math full — the
emission strictly precedes the invocation in the event order. -/
theorem fp16_fallback_full_math_single_log
    (gdp : Nat → cudaDeviceProp) (op : FCOpHandle) (gop : FCGradientOpHandle)
    (hin : op.input0Type = ElemTy.float16)
    (hgin : gop.input0Type = ElemTy.float16)
    (hmaj : (gdp 0).major < kFp16CUDADevicePropMajor) :
    (RunFullyConnectedOpOnCUDADevice true gdp op).events =
      [DispatchEvent.query 0,
       DispatchEvent.logInfo fp16FallbackMsg,
       DispatchEvent.invoke ⟨Prec.half, Prec.half, Prec.half, Prec.half, Prec.full⟩] ∧
    (RunFullyConnectedGradientOpOnCUDADevice true gdp gop).events =
      [DispatchEvent.query 0,
       DispatchEvent.logInfo fp16FallbackMsg,
       DispatchEvent.invoke
         ⟨Prec.half, Prec.half, Prec.half, Prec.half,
          Prec.half, Prec.half, Prec.half, Prec.full⟩] := by
  have h6 : ¬ ((gdp 0).major ≥ kFp16CUDADevicePropMajor) := not_le.mpr hmaj
  constructor <;>
    simp [RunFullyConnectedOpOnCUDADevice,
          RunFullyConnectedGradientOpOnCUDADevice, hin, hgin, h6]

/-- Witness for C1 at major revision 5. -/
theorem fp16_fallback_full_math_single_log_witness :
    (fwdOpW ElemTy.float16).input0Type = ElemTy.float16 ∧
    (bwdOpW ElemTy.float16).input0Type = ElemTy.float16 ∧
    (gdpAt 5 0).major < kFp16CUDADevicePropMajor ∧
    ((RunFullyConnectedOpOnCUDADevice true (gdpAt 5) (fwdOpW ElemTy.float16)).events =
      [DispatchEvent.query 0,
       DispatchEvent.logInfo fp16FallbackMsg,
       DispatchEvent.invoke ⟨Prec.half, Prec.half, Prec.half, Prec.half, Prec.full⟩] ∧
     (RunFullyConnectedGradientOpOnCUDADevice true (gdpAt 5) (bwdOpW ElemTy.float16)).events =
      [DispatchEvent.query 0,
       DispatchEvent.logInfo fp16FallbackMsg,
       DispatchEvent.invoke
         ⟨Prec.half, Prec.half, Prec.half, Prec.half,
          Prec.half, Prec.half, Prec.half, Prec.full⟩]) :=
  ⟨rfl, rfl, by decide,
   fp16_fallback_full_math_single_log (gdpAt 5)
     (fwdOpW ElemTy.float16) (bwdOpW ElemTy.float16) rfl rfl (by decide)⟩

/-- C2: `kFp16CUDADevicePropMajor` equals 6, and for a half-precision input
with the precision flag true and a device major revision at least that
constant, both dispatchers select the all-half instantiation (Math
included) and emit no log message. -/
theorem fp16_native_all_half_no_log
    (gdp : Nat → cudaDeviceProp) (op : FCOpHandle) (gop : FCGradientOpHandle)
    (hin : op.input0Type = ElemTy.float16)
    (hgin : gop.input0Type = ElemTy.float16)
    (hmaj : (gdp 0).major ≥ kFp16CUDADevicePropMajor) :
    kFp16CUDADevicePropMajor = 6 ∧
    (RunFullyConnectedOpOnCUDADevice true gdp op).invoked =
      [⟨Prec.half, Prec.half, Prec.half, Prec.half, Prec.half⟩] ∧
    (RunFullyConnectedOpOnCUDADevice true gdp op).logs = [] ∧
    (RunFullyConnectedGradientOpOnCUDADevice true gdp gop).invoked =
      [⟨Prec.half, Prec.half, Prec.half, Prec.half,
        Prec.half, Prec.half, Prec.half, Prec.half⟩] ∧
    (RunFullyConnectedGradientOpOnCUDADevice true gdp gop).logs = [] := by
  refine ⟨rfl, ?_, ?_, ?_, ?_⟩ <;>
    simp [RunFullyConnectedOpOnCUDADevice,
          RunFullyConnectedGradientOpOnCUDADevice,
          DispatchTrace.invoked, DispatchTrace.logs, hin, hgin, hmaj]

/-- Witness for C2 at major revision 7. -/
theorem fp16_native_all_half_no_log_witness :
    (fwdOpW ElemTy.float16).input0Type = ElemTy.float16 ∧
    (bwdOpW ElemTy.float16).input0Type = ElemTy.float16 ∧
    (gdpAt 7 0).major ≥ kFp16CUDADevicePropMajor ∧
    (kFp16CUDADevicePropMajor = 6 ∧
     (RunFullyConnectedOpOnCUDADevice true (gdpAt 7) (fwdOpW ElemTy.float16)).invoked =
       [⟨Prec.half, Prec.half, Prec.half, Prec.half, Prec.half⟩] ∧
     (RunFullyConnectedOpOnCUDADevice true (gdpAt 7) (fwdOpW ElemTy.float16)).logs = [] ∧
     (RunFullyConnectedGradientOpOnCUDADevice true (gdpAt 7) (bwdOpW ElemTy.float16)).invoked =
       [⟨Prec.half, Prec.half, Prec.half, Prec.half,
         Prec.half, Prec.half, Prec.half, Prec.half⟩] ∧
     (RunFullyConnectedGradientOpOnCUDADevice true (gdpAt 7) (bwdOpW ElemTy.float16)).logs = []) :=
  ⟨rfl, rfl, by decide,
   fp16_native_all_half_no_log (gdpAt 7)
     (fwdOpW ElemTy.float16) (bwdOpW ElemTy.float16) rfl rfl (by decide)⟩

end Caffe2FC

namespace Caffe2FC

/-- C3: for a full-precision input, both dispatchers — directly with any
flag, and through the `RunOnDevice` binding of any engine and transpose
variant — invoke exactly the all-full-precision instantiation and never
query the device capability. -/
theorem fp32_always_full_no_query
    (flag : Bool) (engine : Engine) (tw : Bool)
    (gdp : Nat → cudaDeviceProp) (op : FCOpHandle) (gop : FCGradientOpHandle)
    (hin : op.input0Type = ElemTy.float)
    (hgin : gop.input0Type = ElemTy.float) :
    (RunFullyConnectedOpOnCUDADevice flag gdp op).invoked =
      [⟨Prec.full, Prec.full, Prec.full, Prec.full, Prec.full⟩] ∧
    (RunFullyConnectedOpOnCUDADevice flag gdp op).queried = [] ∧
    (FullyConnectedOp.RunOnDevice engine tw gdp op).invoked =
      [⟨Prec.full, Prec.full, Prec.full, Prec.full, Prec.full⟩] ∧
    (FullyConnectedOp.RunOnDevice engine tw gdp op).queried = [] ∧
    (RunFullyConnectedGradientOpOnCUDADevice flag gdp gop).invoked =
      [⟨Prec.full, Prec.full, Prec.full, Prec.full,
        Prec.full, Prec.full, Prec.full, Prec.full⟩] ∧
    (RunFullyConnectedGradientOpOnCUDADevice flag gdp gop).queried = [] ∧
    (FullyConnectedGradientOp.RunOnDevice engine tw gdp gop).invoked =
      [⟨Prec.full, Prec.full, Prec.full, Prec.full,
        Prec.full, Prec.full, Prec.full, Prec.full⟩] ∧
    (FullyConnectedGradientOp.RunOnDevice engine tw gdp gop).queried = [] := by
  cases engine <;>
    refine ⟨?_, ?_, ?_, ?_, ?_, ?_, ?_, ?_⟩ <;>
      simp [RunFullyConnectedOpOnCUDADevice,
            RunFullyConnectedGradientOpOnCUDADevice,
            FullyConnectedOp.RunOnDevice, FullyConnectedGradientOp.RunOnDevice,
            DispatchTrace.invoked, DispatchTrace.queried, hin, hgin]

/-- Witness for C3 with flag true, the default engine, and a low-revision
device. -/
theorem fp32_always_full_no_query_witness :
    (fwdOpW ElemTy.float).input0Type = ElemTy.float ∧
    (bwdOpW ElemTy.float).input0Type = ElemTy.float ∧
    ((RunFullyConnectedOpOnCUDADevice true (gdpAt 5) (fwdOpW ElemTy.float)).invoked =
       [⟨Prec.full, Prec.full, Prec.full, Prec.full, Prec.full⟩] ∧
     (RunFullyConnectedOpOnCUDADevice true (gdpAt 5) (fwdOpW ElemTy.float)).queried = [] ∧
     (FullyConnectedOp.RunOnDevice Engine.DefaultEngine true (gdpAt 5) (fwdOpW ElemTy.float)).invoked =
       [⟨Prec.full, Prec.full, Prec.full, Prec.full, Prec.full⟩] ∧
     (FullyConnectedOp.RunOnDevice Engine.DefaultEngine true (gdpAt 5) (fwdOpW ElemTy.float)).queried = [] ∧
     (RunFullyConnectedGradientOpOnCUDADevice true (gdpAt 5) (bwdOpW ElemTy.float)).invoked =
       [⟨Prec.full, Prec.full, Prec.full, Prec.full,
         Prec.full, Prec.full, Prec.full, Prec.full⟩] ∧
     (RunFullyConnectedGradientOpOnCUDADevice true (gdpAt 5) (bwdOpW ElemTy.float)).queried = [] ∧
     (FullyConnectedGradientOp.RunOnDevice Engine.DefaultEngine true (gdpAt 5) (bwdOpW ElemTy.float)).invoked =
       [⟨Prec.full, Prec.full, Prec.full, Prec.full,
         Prec.full, Prec.full, Prec.full, Prec.full⟩] ∧
     (FullyConnectedGradientOp.RunOnDevice Engine.DefaultEngine true (gdpAt 5) (bwdOpW ElemTy.float)).queried = []) :=
  ⟨rfl, rfl,
   fp32_always_full_no_query true Engine.DefaultEngine true (gdpAt 5)
     (fwdOpW ElemTy.float) (bwdOpW ElemTy.float) rfl rfl⟩

/-- C4: for a half-precision input with the precision flag false, both
dispatchers invoke exactly the instantiation with all data roles half and
Math full, and never query the device-capability provider, for every
possible provider. -/
theorem fp16_flag_false_full_math_no_query
    (gdp : Nat → cudaDeviceProp) (op : FCOpHandle) (gop : FCGradientOpHandle)
    (hin : op.input0Type = ElemTy.float16)
    (hgin : gop.input0Type = ElemTy.float16) :
    (RunFullyConnectedOpOnCUDADevice false gdp op).invoked =
      [⟨Prec.half, Prec.half, Prec.half, Prec.half, Prec.full⟩] ∧
    (RunFullyConnectedOpOnCUDADevice false gdp op).queried = [] ∧
    (RunFullyConnectedGradientOpOnCUDADevice false gdp gop).invoked =
      [⟨Prec.half, Prec.half, Prec.half, Prec.half,
        Prec.half, Prec.half, Prec.half, Prec.full⟩] ∧
    (RunFullyConnectedGradientOpOnCUDADevice false gdp gop).queried = [] := by
  refine ⟨?_, ?_, ?_, ?_⟩ <;>
    simp [RunFullyConnectedOpOnCUDADevice,
          RunFullyConnectedGradientOpOnCUDADevice,
          DispatchTrace.invoked, DispatchTrace.queried, hin, hgin]

/-- Witness for C4 with a high-revision device, which is still not
queried. -/
theorem fp16_flag_false_full_math_no_query_witness :
    (fwdOpW ElemTy.float16).input0Type = ElemTy.float16 ∧
    (bwdOpW ElemTy.float16).input0Type = ElemTy.float16 ∧
    ((RunFullyConnectedOpOnCUDADevice false (gdpAt 7) (fwdOpW ElemTy.float16)).invoked =
       [⟨Prec.half, Prec.half, Prec.half, Prec.half, Prec.full⟩] ∧
     (RunFullyConnectedOpOnCUDADevice false (gdpAt 7) (fwdOpW ElemTy.float16)).queried = [] ∧
     (RunFullyConnectedGradientOpOnCUDADevice false (gdpAt 7) (bwdOpW ElemTy.float16)).invoked =
       [⟨Prec.half, Prec.half, Prec.half, Prec.half,
         Prec.half, Prec.half, Prec.half, Prec.full⟩] ∧
     (RunFullyConnectedGradientOpOnCUDADevice false (gdpAt 7) (bwdOpW ElemTy.float16)).queried = []) :=
  ⟨rfl, rfl,
   fp16_flag_false_full_math_no_query (gdpAt 7)
     (fwdOpW ElemTy.float16) (bwdOpW ElemTy.float16) rfl rfl⟩

end Caffe2FC

namespace Caffe2FC

/-- C5: every `TensorCoreEngine` `RunOnDevice` binding, forward or
backward and for either transpose variant, is exactly the dispatcher
applied with the flag forced to `false` (ignoring the operator's own
`float16_compute_`); consequently it emits no log and every instantiation
it invokes has a full-precision Math role, for every operator and device
provider. -/
theorem tensorcore_binding_forces_flag_false
    (tw : Bool) (gdp : Nat → cudaDeviceProp)
    (op : FCOpHandle) (gop : FCGradientOpHandle) :
    FullyConnectedOp.RunOnDevice Engine.TensorCoreEngine tw gdp op =
      RunFullyConnectedOpOnCUDADevice false gdp op ∧
    FullyConnectedGradientOp.RunOnDevice Engine.TensorCoreEngine tw gdp gop =
      RunFullyConnectedGradientOpOnCUDADevice false gdp gop ∧
    (FullyConnectedOp.RunOnDevice Engine.TensorCoreEngine tw gdp op).logs = [] ∧
    ((FullyConnectedOp.RunOnDevice Engine.TensorCoreEngine tw gdp op).invoked.all
      fun t => t.Math == Prec.full) = true ∧
    (FullyConnectedGradientOp.RunOnDevice Engine.TensorCoreEngine tw gdp gop).logs = [] ∧
    ((FullyConnectedGradientOp.RunOnDevice Engine.TensorCoreEngine tw gdp gop).invoked.all
      fun t => t.Math == Prec.full) = true := by
  obtain ⟨ity, fdo, cf, df⟩ := op
  obtain ⟨gity, bdo, cb, db⟩ := gop
  refine ⟨rfl, rfl, ?_, ?_, ?_, ?_⟩ <;>
    cases ity <;> cases gity <;>
      simp [FullyConnectedOp.RunOnDevice, FullyConnectedGradientOp.RunOnDevice,
            RunFullyConnectedOpOnCUDADevice,
            RunFullyConnectedGradientOpOnCUDADevice,
            DispatchTrace.invoked, DispatchTrace.logs]

/-- C6: for a primary input whose element type is neither full nor half
precision, both dispatchers fail synchronously with the unsupported-type
error, produce no events at all, and in particular invoke no execution
routine. -/
theorem unsupported_type_no_invoke
    (flag : Bool) (gdp : Nat → cudaDeviceProp)
    (op : FCOpHandle) (gop : FCGradientOpHandle)
    (hf : op.input0Type ≠ ElemTy.float) (hh : op.input0Type ≠ ElemTy.float16)
    (hgf : gop.input0Type ≠ ElemTy.float) (hgh : gop.input0Type ≠ ElemTy.float16) :
    (RunFullyConnectedOpOnCUDADevice flag gdp op).result =
      Except.error CaffeError.unsupportedType ∧
    (RunFullyConnectedOpOnCUDADevice flag gdp op).invoked = [] ∧
    (RunFullyConnectedGradientOpOnCUDADevice flag gdp gop).result =
      Except.error CaffeError.unsupportedType ∧
    (RunFullyConnectedGradientOpOnCUDADevice flag gdp gop).invoked = [] := by
  refine ⟨?_, ?_, ?_, ?_⟩ <;>
    simp [RunFullyConnectedOpOnCUDADevice,
          RunFullyConnectedGradientOpOnCUDADevice,
          DispatchTrace.invoked, hf, hh, hgf, hgh]

/-- Witness for C6 at an unrecognized element type. -/
theorem unsupported_type_no_invoke_witness :
    (fwdOpW ElemTy.other).input0Type ≠ ElemTy.float ∧
    (fwdOpW ElemTy.other).input0Type ≠ ElemTy.float16 ∧
    (bwdOpW ElemTy.other).input0Type ≠ ElemTy.float ∧
    (bwdOpW ElemTy.other).input0Type ≠ ElemTy.float16 ∧
    ((RunFullyConnectedOpOnCUDADevice true (gdpAt 7) (fwdOpW ElemTy.other)).result =
       Except.error CaffeError.unsupportedType ∧
     (RunFullyConnectedOpOnCUDADevice true (gdpAt 7) (fwdOpW ElemTy.other)).invoked = [] ∧
     (RunFullyConnectedGradientOpOnCUDADevice true (gdpAt 7) (bwdOpW ElemTy.other)).result =
       Except.error CaffeError.unsupportedType ∧
     (RunFullyConnectedGradientOpOnCUDADevice true (gdpAt 7) (bwdOpW ElemTy.other)).invoked = []) :=
  ⟨by decide, by decide, by decide, by decide,
   unsupported_type_no_invoke true (gdpAt 7)
     (fwdOpW ElemTy.other) (bwdOpW ElemTy.other)
     (by decide) (by decide) (by decide) (by decide)⟩

/-- C7: every instantiation either dispatcher can invoke — for any flag,
operator and device provider — satisfies the Math-role invariant: the math
precision is full, or equals the precision of every operand role. -/
theorem math_role_never_below_operands
    (flag : Bool) (gdp : Nat → cudaDeviceProp)
    (op : FCOpHandle) (gop : FCGradientOpHandle) :
    ((RunFullyConnectedOpOnCUDADevice flag gdp op).invoked.all
      FwdTypeTuple.mathInvariant) = true ∧
    ((RunFullyConnectedGradientOpOnCUDADevice flag gdp gop).invoked.all
      BwdTypeTuple.mathInvariant) = true := by
  obtain ⟨ity, fdo, cf, df⟩ := op
  obtain ⟨gity, bdo, cb, db⟩ := gop
  constructor <;>
    cases ity <;> cases gity <;> cases flag <;>
      by_cases h6 : (gdp 0).major ≥ kFp16CUDADevicePropMajor <;>
        simp [RunFullyConnectedOpOnCUDADevice,
              RunFullyConnectedGradientOpOnCUDADevice,
              DispatchTrace.invoked, FwdTypeTuple.mathInvariant,
              BwdTypeTuple.mathInvariant, h6]

end Caffe2FC

namespace Caffe2FC

/-- C8: for the same input element type, precision flag and device
provider, the forward and backward dispatchers invoke instantiations that
agree on every shared role (X, W, B, Math), take the same branch outcome
(success, fallback-with-log, or unsupported-type error), and emit the same
log messages — whatever each operator's own remaining configuration is. -/
theorem forward_backward_shared_roles_agree
    (ity : ElemTy) (flag : Bool) (gdp : Nat → cudaDeviceProp)
    (fdo : FwdTypeTuple → Bool) (bdo : BwdTypeTuple → Bool)
    (cf cb : Bool) (df db : Nat) :
    ((RunFullyConnectedOpOnCUDADevice flag gdp ⟨ity, fdo, cf, df⟩).invoked.map
       FwdTypeTuple.shared) =
      ((RunFullyConnectedGradientOpOnCUDADevice flag gdp ⟨ity, bdo, cb, db⟩).invoked.map
       BwdTypeTuple.shared) ∧
    (RunFullyConnectedOpOnCUDADevice flag gdp ⟨ity, fdo, cf, df⟩).outcome =
      (RunFullyConnectedGradientOpOnCUDADevice flag gdp ⟨ity, bdo, cb, db⟩).outcome ∧
    (RunFullyConnectedOpOnCUDADevice flag gdp ⟨ity, fdo, cf, df⟩).logs =
      (RunFullyConnectedGradientOpOnCUDADevice flag gdp ⟨ity, bdo, cb, db⟩).logs := by
  refine ⟨?_, ?_, ?_⟩ <;>
    cases ity <;> cases flag <;>
      by_cases h6 : (gdp 0).major ≥ kFp16CUDADevicePropMajor <;>
        simp [RunFullyConnectedOpOnCUDADevice,
              RunFullyConnectedGradientOpOnCUDADevice,
              DispatchTrace.invoked, DispatchTrace.logs, DispatchTrace.outcome,
              FwdTypeTuple.shared, BwdTypeTuple.shared, h6]

/-- C9: for a supported input element type (full or half precision), each
dispatcher invokes exactly one execution routine and returns its boolean
result unchanged, for every flag and device provider. -/
theorem successful_dispatch_invokes_once
    (flag : Bool) (gdp : Nat → cudaDeviceProp)
    (op : FCOpHandle) (gop : FCGradientOpHandle)
    (hin : op.input0Type = ElemTy.float ∨ op.input0Type = ElemTy.float16)
    (hgin : gop.input0Type = ElemTy.float ∨ gop.input0Type = ElemTy.float16) :
    (∃ t, (RunFullyConnectedOpOnCUDADevice flag gdp op).invoked = [t] ∧
          (RunFullyConnectedOpOnCUDADevice flag gdp op).result =
            Except.ok (op.DoRunWithType t)) ∧
    (∃ t, (RunFullyConnectedGradientOpOnCUDADevice flag gdp gop).invoked = [t] ∧
          (RunFullyConnectedGradientOpOnCUDADevice flag gdp gop).result =
            Except.ok (gop.DoRunWithType t)) := by
  constructor
  · rcases hin with h | h
    · exact ⟨⟨Prec.full, Prec.full, Prec.full, Prec.full, Prec.full⟩,
        by simp [RunFullyConnectedOpOnCUDADevice, DispatchTrace.invoked, h],
        by simp [RunFullyConnectedOpOnCUDADevice, h]⟩
    · cases flag
      · exact ⟨⟨Prec.half, Prec.half, Prec.half, Prec.half, Prec.full⟩,
          by simp [RunFullyConnectedOpOnCUDADevice, DispatchTrace.invoked, h],
          by simp [RunFullyConnectedOpOnCUDADevice, h]⟩
      · by_cases h6 : (gdp 0).major ≥ kFp16CUDADevicePropMajor
        · exact ⟨⟨Prec.half, Prec.half, Prec.half, Prec.half, Prec.half⟩,
            by simp [RunFullyConnectedOpOnCUDADevice, DispatchTrace.invoked, h, h6],
            by simp [RunFullyConnectedOpOnCUDADevice, h, h6]⟩
        · exact ⟨⟨Prec.half, Prec.half, Prec.half, Prec.half, Prec.full⟩,
            by simp [RunFullyConnectedOpOnCUDADevice, DispatchTrace.invoked, h, h6],
            by simp [RunFullyConnectedOpOnCUDADevice, h, h6]⟩
  · rcases hgin with h | h
    · exact ⟨⟨Prec.full, Prec.full, Prec.full, Prec.full,
              Prec.full, Prec.full, Prec.full, Prec.full⟩,
        by simp [RunFullyConnectedGradientOpOnCUDADevice, DispatchTrace.invoked, h],
        by simp [RunFullyConnectedGradientOpOnCUDADevice, h]⟩
    · cases flag
      · exact ⟨⟨Prec.half, Prec.half, Prec.half, Prec.half,
                Prec.half, Prec.half, Prec.half, Prec.full⟩,
          by simp [RunFullyConnectedGradientOpOnCUDADevice, DispatchTrace.invoked, h],
          by simp [RunFullyConnectedGradientOpOnCUDADevice, h]⟩
      · by_cases h6 : (gdp 0).major ≥ kFp16CUDADevicePropMajor
        · exact ⟨⟨Prec.half, Prec.half, Prec.half, Prec.half,
                  Prec.half, Prec.half, Prec.half, Prec.half⟩,
            by simp [RunFullyConnectedGradientOpOnCUDADevice, DispatchTrace.invoked, h, h6],
            by simp [RunFullyConnectedGradientOpOnCUDADevice, h, h6]⟩
        · exact ⟨⟨Prec.half, Prec.half, Prec.half, Prec.half,
                  Prec.half, Prec.half, Prec.half, Prec.full⟩,
            by simp [RunFullyConnectedGradientOpOnCUDADevice, DispatchTrace.invoked, h, h6],
            by simp [RunFullyConnectedGradientOpOnCUDADevice, h, h6]⟩

/-- Witness for C9 at a half-precision input with flag true on a
revision-7 device. -/
theorem successful_dispatch_invokes_once_witness :
    ((fwdOpW ElemTy.float16).input0Type = ElemTy.float ∨
     (fwdOpW ElemTy.float16).input0Type = ElemTy.float16) ∧
    ((bwdOpW ElemTy.float16).input0Type = ElemTy.float ∨
     (bwdOpW ElemTy.float16).input0Type = ElemTy.float16) ∧
    ((∃ t, (RunFullyConnectedOpOnCUDADevice true (gdpAt 7) (fwdOpW ElemTy.float16)).invoked = [t] ∧
           (RunFullyConnectedOpOnCUDADevice true (gdpAt 7) (fwdOpW ElemTy.float16)).result =
             Except.ok ((fwdOpW ElemTy.float16).DoRunWithType t)) ∧
     (∃ t, (RunFullyConnectedGradientOpOnCUDADevice true (gdpAt 7) (bwdOpW ElemTy.float16)).invoked = [t] ∧
           (RunFullyConnectedGradientOpOnCUDADevice true (gdpAt 7) (bwdOpW ElemTy.float16)).result =
             Except.ok ((bwdOpW ElemTy.float16).DoRunWithType t))) :=
  ⟨Or.inr rfl, Or.inr rfl,
   successful_dispatch_invokes_once true (gdpAt 7)
     (fwdOpW ElemTy.float16) (bwdOpW ElemTy.float16) (Or.inr rfl) (Or.inr rfl)⟩

/-- C10: when a dispatcher consults the capability provider it passes
device index 0: under a half-precision input with flag true the query list
is exactly `[0]`, and for every operator (any input type, any configured
device) every queried index equals 0. -/
theorem capability_query_targets_device_zero
    (flag : Bool) (gdp : Nat → cudaDeviceProp)
    (op op2 : FCOpHandle) (gop gop2 : FCGradientOpHandle)
    (hin : op.input0Type = ElemTy.float16)
    (hgin : gop.input0Type = ElemTy.float16) :
    (RunFullyConnectedOpOnCUDADevice true gdp op).queried = [0] ∧
    (RunFullyConnectedGradientOpOnCUDADevice true gdp gop).queried = [0] ∧
    ((RunFullyConnectedOpOnCUDADevice flag gdp op2).queried.all
      fun i => i == 0) = true ∧
    ((RunFullyConnectedGradientOpOnCUDADevice flag gdp gop2).queried.all
      fun i => i == 0) = true := by
  obtain ⟨ity2, fdo2, cf2, df2⟩ := op2
  obtain ⟨gity2, bdo2, cb2, db2⟩ := gop2
  refine ⟨?_, ?_, ?_, ?_⟩ <;>
    cases ity2 <;> cases gity2 <;> cases flag <;>
      by_cases h6 : (gdp 0).major ≥ kFp16CUDADevicePropMajor <;>
        simp [RunFullyConnectedOpOnCUDADevice,
              RunFullyConnectedGradientOpOnCUDADevice,
              DispatchTrace.queried, hin, hgin, h6]

/-- Witness for C10 on a revision-5 device with a nonzero configured
device index. -/
theorem capability_query_targets_device_zero_witness :
    (fwdOpW ElemTy.float16).input0Type = ElemTy.float16 ∧
    (bwdOpW ElemTy.float16).input0Type = ElemTy.float16 ∧
    ((RunFullyConnectedOpOnCUDADevice true (gdpAt 5) (fwdOpW ElemTy.float16)).queried = [0] ∧
     (RunFullyConnectedGradientOpOnCUDADevice true (gdpAt 5) (bwdOpW ElemTy.float16)).queried = [0] ∧
     ((RunFullyConnectedOpOnCUDADevice true (gdpAt 5)
        ⟨ElemTy.float16, fun _ => true, true, 3⟩).queried.all fun i => i == 0) = true ∧
     ((RunFullyConnectedGradientOpOnCUDADevice true (gdpAt 5)
        ⟨ElemTy.float16, fun _ => true, true, 3⟩).queried.all fun i => i == 0) = true) :=
  ⟨rfl, rfl,
   capability_query_targets_device_zero true (gdpAt 5)
     (fwdOpW ElemTy.float16) ⟨ElemTy.float16, fun _ => true, true, 3⟩
     (bwdOpW ElemTy.float16) ⟨ElemTy.float16, fun _ => true, true, 3⟩
     rfl rfl⟩

end Caffe2FC
